import Mathlib

/-!
Verification development for the RiceMaid agricultural-assistant backend.

The development shallowly embeds the conversational webhook handler
(`app/api/endpoints/line_webhook.py`), the carbon-credit REST endpoint
(`app/api/endpoints/carbon_credit.py`), and the province-setting message
handler (`app/core/handlers/message_handler.py`).  Python dictionaries are
modelled as association lists, Python floats as rationals, fallible
collaborator calls as `Except` values supplied by an oracle, and a turn of
the handler as a pure step function on the session state.
-/

namespace RiceMaid

/-! ## Association-list model of Python dictionaries -/

/-- `d[k] = v`: overwrite the binding of `k`, or append it when absent. -/
def assocSet {α : Type} (l : List (String × α)) (k : String) (v : α) :
    List (String × α) :=
  match l with
  | [] => [(k, v)]
  | (k2, v2) :: rest =>
      if k2 = k then (k, v) :: rest else (k2, v2) :: assocSet rest k v

/-- `d.pop(k, None)`: remove the binding of `k` when present. -/
def assocErase {α : Type} (l : List (String × α)) (k : String) :
    List (String × α) :=
  l.filter (fun kv => kv.1 ≠ k)

/-! ## Python string membership (`sub in s`) -/

/-- Consume the literal `pre` from the front of `l`; `none` when `l` does
not start with `pre`. -/
def dropLit : List Char → List Char → Option (List Char)
  | [], l => some l
  | _ :: _, [] => none
  | p :: ps, c :: cs => if c = p then dropLit ps cs else none

/-- `needle` occurs contiguously in `hay` (Python substring containment). -/
def listInfix (needle : List Char) : List Char → Bool
  | [] => (dropLit needle []).isSome
  | c :: t => (dropLit needle (c :: t)).isSome || listInfix needle t

/-- Python `needle in hay` on strings. -/
def pyIn (needle hay : String) : Bool :=
  listInfix needle.data hay.data

/-! ## The regular expression of the carbon-credit data parser

`line_webhook.py` line 354 matches the incoming text with
`re.match(r"(\d+)\s*ไร่,\s*(\d+)\s*วัน", text)`: anchored at the start,
one or more digits, optional whitespace, the literal "ไร่,", optional
whitespace, one or more digits, optional whitespace, the literal "วัน",
and then anything.  Since the digit, whitespace and literal character
classes are pairwise disjoint at each boundary, greedy matching without
backtracking is exact, so the pattern is embedded as the deterministic
parser below.  (`\d` and `\s` are restricted to their ASCII parts, which
covers every input the claims mention.) -/

def isPySpace (c : Char) : Bool :=
  c = ' ' || c = '\t' || c = '\n' || c = '\r' || c = '\x0b' || c = '\x0c'

def digitsToNat (l : List Char) : Nat :=
  l.foldl (fun acc c => 10 * acc + (c.toNat - '0'.toNat)) 0

/-- Embedding of `re.match(r"(\d+)\s*ไร่,\s*(\d+)\s*วัน", text)`, returning
the two captured integer groups. -/
def parseCarbonData (text : String) : Option (Nat × Nat) :=
  let cs := text.data
  let d1 := cs.takeWhile Char.isDigit
  let r1 := cs.dropWhile Char.isDigit
  if d1.isEmpty then none else
  match dropLit "ไร่,".data (r1.dropWhile isPySpace) with
  | none => none
  | some r2 =>
      let r3 := r2.dropWhile isPySpace
      let d2 := r3.takeWhile Char.isDigit
      let r4 := r3.dropWhile Char.isDigit
      if d2.isEmpty then none else
      match dropLit "วัน".data (r4.dropWhile isPySpace) with
      | none => none
      | some _ => some (digitsToNat d1, digitsToNat d2)

/-! ## Carbon-credit calculator (`app/api/endpoints/carbon_credit.py`)

Python floats are modelled as rationals; the numeric divergences the
claims are about (a factor of 4000 and a factor of 1000000) dwarf any
IEEE-754 rounding, so the rational model decides them faithfully. -/

def METHANE_EMISSION_COEFF : ℚ := 1952 / 10000

def GWP_METHANE : ℚ := 25

/-- `estimate_methane_emission` (lines 10-26): the body is the single
expression `coefficient_methane_emission * area_rice_field * harvest_age
* 10**-3 * gwp_methane`.  All four parameters are required. -/
def estimate_methane_emission (coefficient_methane_emission : ℚ)
    (area_rice_field : ℚ) (harvest_age : ℤ) (gwp_methane : ℚ) : ℚ :=
  coefficient_methane_emission * area_rice_field * (harvest_age : ℚ)
    * (1 / 1000) * gwp_methane

structure CarbonCreditResponse where
  methane_emission : ℚ
  carbon_credit : ℚ
  deriving DecidableEq, Repr

structure ValidationError where
  status : Nat
  detail : String
  deriving DecidableEq, Repr

/-- `POST /carbon-credit/` (`calculate_carbon_credit`, lines 34-49):
reject non-positive area or harvest age with an HTTP 400 whose detail
names the offending field, otherwise apply the formula and divide by
1000 for the credit. -/
def calculate_carbon_credit (area : ℚ) (harvest_age : ℤ) :
    Except ValidationError CarbonCreditResponse :=
  if area ≤ 0 then
    .error ⟨400, "Area must be greater than 0"⟩
  else if harvest_age ≤ 0 then
    .error ⟨400, "Harvest age must be greater than 0"⟩
  else
    let methane_emission := estimate_methane_emission METHANE_EMISSION_COEFF
      area harvest_age GWP_METHANE
    .ok ⟨methane_emission, methane_emission / 1000⟩

/-! ## The webhook call site of the calculator

`line_webhook.py` line 359 calls
`estimate_methane_emission(area_rice_field=area, harvest_age=harvest_age)`.
The callee declares four parameters without defaults, so Python raises a
`TypeError` naming the missing parameters before the function body runs. -/

def estimateMethaneEmissionParams : List String :=
  ["coefficient_methane_emission", "area_rice_field", "harvest_age",
   "gwp_methane"]

def webhookEstimateCallKwargs : List String :=
  ["area_rice_field", "harvest_age"]

def webhookEstimateMissingParams : List String :=
  estimateMethaneEmissionParams.filter
    (fun p => !(webhookEstimateCallKwargs.contains p))

def estimateCallTypeError : String :=
  "TypeError: estimate_methane_emission missing 2 required positional "
    ++ "arguments: coefficient_methane_emission and gwp_methane"

/-! ## Province reference data

`line_webhook.py` and `message_handler.py` import `app.enum.province.
Province`, whose source file is not in the repository snapshot. -/

structure ProvinceInfo where
  name_th : String
  name_en : String
  code : Nat
  deriving DecidableEq, Repr

/-- Modelled from the spec: `app/enum/province.py` is imported by the
webhook and message handlers but absent from the sources; §3 of the spec
describes `Province` as a fixed closed enumeration of administrative
regions, each with a canonical Thai name, English name, and numeric
code.  The two provinces the webhook prompt itself names stand in for
the full enumeration; every theorem about matching is generic in the
list and only the witnesses evaluate it. -/
def Province : List ProvinceInfo :=
  [⟨"สุพรรณบุรี", "Suphan Buri", 72⟩,
   ⟨"นครราชสีมา", "Nakhon Ratchasima", 30⟩]

/-- `next((prov for prov in Province if prov.value.name_th == text or
prov.value.name_en == text), None)`, generic in the province list. -/
def findProvinceIn (provinces : List ProvinceInfo) (text : String) :
    Option ProvinceInfo :=
  provinces.find? (fun p => p.name_th == text || p.name_en == text)

def findProvince (text : String) : Option ProvinceInfo :=
  findProvinceIn Province text

/-! ## Webhook handler state and collaborators

`chat_sessions` maps a user id to a chat-session handle; the carbon
branch stores `None` there, so values are `Option Nat` (a handle is an
opaque id).  `chat_states` maps a user id to the state tag or `None`. -/

structure WebhookState where
  chatSessions : List (String × Option Nat)
  chatStates : List (String × Option String)
  deriving DecidableEq, Repr

/-- `set_chat_state(user_id, state)` (line 177): `chat_states[user_id] =
state`. -/
def set_chat_state (st : WebhookState) (user_id : String)
    (state : Option String) : WebhookState :=
  { st with chatStates := assocSet st.chatStates user_id state }

/-- `get_chat_state(user_id)` (line 181): `chat_states.get(user_id)` —
`None` when the key is absent. -/
def get_chat_state (st : WebhookState) (user_id : String) : Option String :=
  (st.chatStates.lookup user_id).join

/-- `user_id in chat_sessions`: key membership, regardless of the stored
value. -/
def inChatSessions (st : WebhookState) (user_id : String) : Bool :=
  (st.chatSessions.lookup user_id).isSome

/-- `get_or_create_chat_session(user_id)` (lines 150-174): create a fresh
session only when `user_id` is absent as a key, then return
`chat_sessions[user_id]` — which is `None` when `None` was stored. -/
def get_or_create_chat_session (st : WebhookState) (user_id : String)
    (fresh : Nat) : Option Nat × WebhookState :=
  match st.chatSessions.lookup user_id with
  | some v => (v, st)
  | none =>
      let sessions := assocSet st.chatSessions user_id (some fresh)
      (some fresh, { st with chatSessions := sessions })

/-- One collaborator invocation of a turn, for counting side effects. -/
inductive CollabEvent
  | fetchWater (resource_type : String) (province_code : Nat)
  | llmSend (prompt : String)
  deriving DecidableEq, Repr

/-- Outcomes of the external collaborators of one turn.  `send` is keyed
by the chat-session handle; the water fetches by the province code. -/
structure Oracle where
  loading : Except String Unit
  news : String
  overviewOutcome : Except String String
  fetchSmall : Nat → Except String String
  fetchMedium : Nat → Except String String
  send : Nat → String → Except String String
  freshSession : Nat

/-- `chat_session.send_message(text)` where `chat_session` may be the
stored `None`: Python raises `AttributeError` on `None`. -/
def sendViaSession (o : Oracle) (handle : Option Nat) (text : String) :
    Except String String :=
  match handle with
  | none => .error "AttributeError: NoneType object has no attribute send_message"
  | some h => o.send h text

/-! ### Reply texts fixed by the source -/

def carbonPrompt : String :=
  "กรุณาตอบคำถามเพื่อคำนวณคาร์บอนเครดิต:\n"
    ++ "1. จำนวนที่ดินกี่ไร่?\n"
    ++ "2. อายุเก็บเกี่ยวข้าวในฤดูเพาะปลูก?\nตัวอย่าง\n5 ไร่, 120 วัน"

def recommendPrompt : String :=
  "ผมมีข้อมูลเรื่องนาและสภาพอากาศบริเวณของคุณอยู่แล้ว\nมีข้อมูลอะไรที่ต้องการเพิ่มเติมให้ผมไหมครับ "
    ++ "เช่น ข้อมูลเรื่องปุ๋ยที่คุณใช้ในวันนี้หรือข้อมูลอื่นๆในช่วงเวลาที่ผ่านมาหรือขนาดพื้นที่"

def waterPrompt : String :=
  "กรุณาพิมพ์ชื่อจังหวัดเพื่อรับข่าวน้ำวันนี้\nตัวอย่าง: สุพรรณบุรี, นครราชสีมา"

def provinceNotFound : String :=
  "ไม่พบข้อมูลจังหวัด กรุณาลองใหม่อีกครั้งและระบุชื่อจังหวัดให้ถูกต้อง"

def carbonFormatError : String :=
  "ข้อมูลไม่ถูกต้อง\nโปรดถามอีกครั้ง\nกรุณาตอบตามรูปแบบนี้:\n"
    ++ "จำนวนที่ดิน (ไร่), อายุเก็บเกี่ยวข้าว (วัน)\n"
    ++ "ตัวอย่าง: 5 ไร่, 120 วัน"

/-- The summary prompt of the province branch (lines 338-343); the reply
at line 346 is this prompt itself, since line 346 overwrites the model
reply with `summary_prompt`.  The surrounding literal text is
abbreviated; no claim inspects it. -/
def summaryPrompt (medium_data small_data : String) : String :=
  "สรุปข้อมูลเกี่ยวกับสถานการณ์น้ำในจังหวัดนี้ในช่วง 30 วันที่ผ่านมา: "
    ++ "อ่างเก็บน้ำขนาดกลาง: " ++ medium_data
    ++ " อ่างเก็บน้ำขนาดเล็ก: " ++ small_data
    ++ " ให้สรุปข้อมูลด้านบนออกมาเป็นรายงานปริมาณน้ำและวิเคราะห์สถานการณ์น้ำในจังหวัดนี้"

/-- The combined prompt of the recommendation branch (line 291); literal
text abbreviated, no claim inspects it. -/
def recommendationCombined (news_text user_suggestion : String) : String :=
  "ให้เริ่มตอบด้วย 1 คำแนะนำ! นี่คือข้อมูลทั้งหมด ข่าว: " ++ news_text
    ++ " และข้อมูลเพิ่มเติมจากชาวไร่: " ++ user_suggestion

/-! ### The branch bodies of `handle_text_message`

A body returns `.ok (reply, state, events)` for a completed branch and
`.error (detail, state, events)` when a Python exception escapes the
branch; the carried state holds the mutations made before the raise. -/

abbrev BodyResult :=
  Except (String × WebhookState × List CollabEvent)
    (String × WebhookState × List CollabEvent)

/-- Lines 220-226: carbon-credit trigger. -/
def carbonTriggerBody (st : WebhookState) (user_id : String) : BodyResult :=
  .ok (carbonPrompt, set_chat_state st user_id
    (some "awaiting_carbon_credit_data"), [])

/-- Lines 228-229: news trigger; `get_farm_news` catches its own
exceptions and always returns a string. -/
def newsTriggerBody (o : Oracle) (st : WebhookState) : BodyResult :=
  .ok (o.news, st, [])

/-- Lines 231-254: field-overview trigger.  The branch body calls the
external `genai` module attribute `generate_weather_mock_data`; its
outcome (reply or raised exception) is the oracle's. -/
def overviewTriggerBody (o : Oracle) (st : WebhookState) : BodyResult :=
  match o.overviewOutcome with
  | .ok r => .ok (r, st, [])
  | .error e => .error (e, st, [])

/-- Lines 256-261: recommendation trigger. -/
def recommendTriggerBody (st : WebhookState) (user_id : String) :
    BodyResult :=
  .ok (recommendPrompt, set_chat_state st user_id
    (some "waiting_recommendation"), [])

/-- Lines 263-295: the `waiting_recommendation` state branch. -/
def recommendStateBody (o : Oracle) (st : WebhookState)
    (user_id text : String) : BodyResult :=
  let prompt := recommendationCombined o.news text
  let got := get_or_create_chat_session st user_id o.freshSession
  match sendViaSession o got.1 prompt with
  | .ok r => .ok (r, set_chat_state got.2 user_id none, [.llmSend prompt])
  | .error e => .error (e, got.2, [.llmSend prompt])

/-- Lines 297-299: water-data trigger. -/
def waterTriggerBody (st : WebhookState) (user_id : String) : BodyResult :=
  .ok (waterPrompt, set_chat_state st user_id (some "awaiting_province"), [])

/-- Lines 301-351: the `awaiting_province` state branch.  On a province
match it fetches the small then the medium water-resources data, sends a
summary prompt to the chat session, replies with the prompt itself (line
346), and resets the state; a raise at any of those calls leaves the
mutations made so far.  On no match it replies not-found and resets. -/
def provinceStateBody (o : Oracle) (st : WebhookState)
    (user_id text : String) : BodyResult :=
  match findProvince text with
  | none => .ok (provinceNotFound, set_chat_state st user_id none, [])
  | some p =>
      match o.fetchSmall p.code with
      | .error e => .error (e, st, [.fetchWater "Small" p.code])
      | .ok small_data =>
          match o.fetchMedium p.code with
          | .error e =>
              .error (e, st,
                [.fetchWater "Small" p.code, .fetchWater "Medium" p.code])
          | .ok medium_data =>
              let prompt := summaryPrompt medium_data small_data
              let got := get_or_create_chat_session st user_id o.freshSession
              let evts := [.fetchWater "Small" p.code,
                .fetchWater "Medium" p.code, CollabEvent.llmSend prompt]
              match sendViaSession o got.1 prompt with
              | .error e => .error (e, got.2, evts)
              | .ok _ => .ok (prompt, set_chat_state got.2 user_id none, evts)

/-- Lines 353-376: the `awaiting_carbon_credit_data` state branch.  On a
pattern match, line 359 calls `estimate_methane_emission` with only
`area_rice_field` and `harvest_age` of its four required parameters, so
Python raises `TypeError` before any report is built; the state is not
reset and the chat handle is not invalidated.  On no match, the branch
replies with the format-error prompt and resets the state to `None`. -/
def carbonStateBody (st : WebhookState) (user_id text : String) :
    BodyResult :=
  match parseCarbonData text with
  | some _ =>
      if webhookEstimateMissingParams.isEmpty then
        .ok ("unreachable: the call supplies every required parameter",
          st, [])
      else
        .error (estimateCallTypeError, st, [])
  | none =>
      .ok (carbonFormatError, set_chat_state st user_id none, [])

/-- Lines 378-381: the catch-all free-form chat branch. -/
def fallbackBody (o : Oracle) (st : WebhookState) (user_id text : String) :
    BodyResult :=
  let got := get_or_create_chat_session st user_id o.freshSession
  match sendViaSession o got.1 text with
  | .ok r => .ok (r, got.2, [.llmSend text])
  | .error e => .error (e, got.2, [.llmSend text])

/-- The `if/elif` chain of lines 220-381: `state` is read once at line
218 before the chain; each guard is a substring test on the raw text or
a conjunction of key membership in `chat_sessions` and a state tag. -/
def runBody (o : Oracle) (st : WebhookState) (user_id text : String) :
    BodyResult :=
  let state := get_chat_state st user_id
  let inS := inChatSessions st user_id
  if pyIn "คำนวณคาร์บอนเครดิต" text || pyIn "calculate carbon credit" text then
    carbonTriggerBody st user_id
  else if pyIn "ข่าววันนี้" text || pyIn "news" text then
    newsTriggerBody o st
  else if pyIn "ภาพรวมนา" text || pyIn "rice field overview" text then
    overviewTriggerBody o st
  else if pyIn "คำแนะนำ" text || pyIn "recommendation" text then
    recommendTriggerBody st user_id
  else if inS && state == some "waiting_recommendation" then
    recommendStateBody o st user_id text
  else if pyIn "ข้อมูลน้ำ" text || pyIn "water data" text then
    waterTriggerBody st user_id
  else if inS && state == some "awaiting_province" then
    provinceStateBody o st user_id text
  else if inS && state == some "awaiting_carbon_credit_data" then
    carbonStateBody st user_id text
  else
    fallbackBody o st user_id text

/-- The observable outcome of a turn of `handle_text_message`. -/
structure TurnOutcome where
  reply : String
  final : WebhookState
  errored : Bool
  events : List CollabEvent
  deriving DecidableEq, Repr

/-- `handle_text_message` (lines 204-395): show the loading animation,
run the `if/elif` chain, reply; the outer `except` (lines 389-395)
downgrades any exception to a reply carrying `str(e)` and keeps the
mutations made before the raise. -/
def handle_text_message (o : Oracle) (st : WebhookState)
    (user_id text : String) : TurnOutcome :=
  match o.loading with
  | .error e => ⟨"Error processing message: " ++ e, st, true, []⟩
  | .ok () =>
      match runBody o st user_id text with
      | .ok (r, st2, evts) => ⟨r, st2, false, evts⟩
      | .error (e, st2, evts) =>
          ⟨"Error processing message: " ++ e, st2, true, evts⟩

/-! ## The Intent Classifier of the spec (§4.3)

A second definition following the words of the spec, to be compared with
the `if/elif` chain: an ordered list of keyword sets, returning the
first intent any of whose keywords is a substring of the text. -/

inductive Intent
  | carbonCredit | news | fieldOverview | recommendation | waterData
  deriving DecidableEq, Repr

def idleTriggers : List (List String × Intent) :=
  [(["คำนวณคาร์บอนเครดิต", "calculate carbon credit"], .carbonCredit),
   (["ข่าววันนี้", "news"], .news),
   (["ภาพรวมนา", "rice field overview"], .fieldOverview),
   (["คำแนะนำ", "recommendation"], .recommendation),
   (["ข้อมูลน้ำ", "water data"], .waterData)]

/-- The spec classifier: first trigger pair any of whose keywords occurs
in the text. -/
def classify (text : String) : Option Intent :=
  (idleTriggers.find? (fun t => t.1.any (fun k => pyIn k text))).map
    (fun t => t.2)

/-- The branch body each classified intent dispatches to in state
`Idle`; no intent falls through to the free-form chat branch. -/
def intentBody (i : Option Intent) (o : Oracle) (st : WebhookState)
    (user_id text : String) : BodyResult :=
  match i with
  | some .carbonCredit => carbonTriggerBody st user_id
  | some .news => newsTriggerBody o st
  | some .fieldOverview => overviewTriggerBody o st
  | some .recommendation => recommendTriggerBody st user_id
  | some .waterData => waterTriggerBody st user_id
  | none => fallbackBody o st user_id text

/-! ## The province-setting message handler
(`app/core/handlers/message_handler.py`)

The relational store is modelled as an association list from user id to
the stored province; `writeCount` counts the commits issued. -/

structure ProvinceSettingOutcome where
  reply : String
  db : List (String × String)
  userStates : List (String × String)
  writeCount : Nat
  deriving DecidableEq, Repr

/-- `_update_user_province` (lines 82-90): update and commit the row
when the user exists (one store write), otherwise reply not-found with
no write. -/
def update_user_province (db : List (String × String))
    (user_id province_name : String) : String × List (String × String) × Nat :=
  match db.lookup user_id with
  | some _ =>
      ("ตั้งค่าเสร็จสิ้น: " ++ province_name,
       assocSet db user_id province_name, 1)
  | none => ("ไม่พบผู้ใช้ในระบบฐานข้อมูล", db, 0)

/-- `_handle_province_setting` (lines 56-80): exact province-name match
updates the store, any other text replies an error; either way the
pending state is popped. -/
def handle_province_setting (db : List (String × String))
    (userStates : List (String × String)) (user_id text : String) :
    ProvinceSettingOutcome :=
  match findProvince text with
  | some p =>
      let upd := update_user_province db user_id p.name_th
      ⟨upd.1, upd.2.1, assocErase userStates user_id, upd.2.2⟩
  | none =>
      ⟨"ชื่อจังหวัดไม่ถูกต้อง กรุณาลองใหม่.", db,
       assocErase userStates user_id, 0⟩

/-! ## Concrete fixtures for witnesses and counterexamples -/

/-- An oracle on which every collaborator call succeeds. -/
def okOracle : Oracle :=
  ⟨.ok (), "THE_NEWS", .ok "OVERVIEW",
   fun _ => .ok "SMALLDATA", fun _ => .ok "MEDIUMDATA",
   fun _ t => .ok ("LLM:" ++ t), 99⟩

/-- `okOracle` with a failing small-reservoir hydrology fetch. -/
def smallFailOracle : Oracle :=
  { okOracle with fetchSmall := fun _ => .error "boom" }

def stIdle : WebhookState := ⟨[], []⟩

def stAwaitProvince : WebhookState :=
  ⟨[("U", some 7)], [("U", some "awaiting_province")]⟩

def stAwaitProvinceNoSession : WebhookState :=
  ⟨[], [("U", some "awaiting_province")]⟩

def stAwaitCarbon : WebhookState :=
  ⟨[("U", some 7)], [("U", some "awaiting_carbon_credit_data")]⟩

/-- Number of hydrology fetches among the events of a turn. -/
def fetchCount (evts : List CollabEvent) : Nat :=
  (evts.filter (fun e => match e with
    | .fetchWater _ _ => true
    | _ => false)).length

/-- The text contains none of the ten Idle trigger keywords. -/
def noTrigger (text : String) : Prop :=
  pyIn "คำนวณคาร์บอนเครดิต" text = false
  ∧ pyIn "calculate carbon credit" text = false
  ∧ pyIn "ข่าววันนี้" text = false
  ∧ pyIn "news" text = false
  ∧ pyIn "ภาพรวมนา" text = false
  ∧ pyIn "rice field overview" text = false
  ∧ pyIn "คำแนะนำ" text = false
  ∧ pyIn "recommendation" text = false
  ∧ pyIn "ข้อมูลน้ำ" text = false
  ∧ pyIn "water data" text = false

instance (text : String) : Decidable (noTrigger text) := by
  unfold noTrigger; infer_instance

/-! ## Helper lemmas -/

theorem lookup_assocSet_self {α : Type} (l : List (String × α)) (k : String)
    (v : α) : (assocSet l k v).lookup k = some v := by
  induction l with
  | nil => simp [assocSet, List.lookup]
  | cons kv rest ih =>
      by_cases h : kv.1 = k
      · simp [assocSet, h, List.lookup]
      · have hk : (k == kv.1) = false :=
          beq_eq_false_iff_ne.mpr (fun h2 => h h2.symm)
        simp [assocSet, h, List.lookup, hk, ih]

theorem lookup_assocSet_other {α : Type} (l : List (String × α))
    (k k2 : String) (v : α) (hne : k2 ≠ k) :
    (assocSet l k v).lookup k2 = l.lookup k2 := by
  have hk : (k2 == k) = false := beq_eq_false_iff_ne.mpr hne
  induction l with
  | nil => simp [assocSet, List.lookup, hk]
  | cons kv rest ih =>
      by_cases h : kv.1 = k
      · subst h
        simp [assocSet, List.lookup, hk]
      · simp only [assocSet, if_neg h, List.lookup]
        cases hd : (k2 == kv.1) <;> simp [hd, ih]

/-- Reading back the state just written for a user. -/
theorem get_set_chat_state (st : WebhookState) (user_id : String)
    (s : Option String) :
    get_chat_state (set_chat_state st user_id s) user_id = s := by
  simp [get_chat_state, set_chat_state, lookup_assocSet_self]

/-- With no trigger keyword present, the chain dispatches on the user's
membership in `chat_sessions` and recorded state. -/
theorem runBody_recommend_state (o : Oracle) (st : WebhookState)
    (user_id text : String) (h : noTrigger text)
    (hS : inChatSessions st user_id = true)
    (hst : get_chat_state st user_id = some "waiting_recommendation") :
    runBody o st user_id text = recommendStateBody o st user_id text := by
  obtain ⟨h1, h2, h3, h4, h5, h6, h7, h8, h9, h10⟩ := h
  unfold runBody
  rw [hst]
  simp [h1, h2, h3, h4, h5, h6, h7, h8, h9, h10, hS]

theorem runBody_province_state (o : Oracle) (st : WebhookState)
    (user_id text : String) (h : noTrigger text)
    (hS : inChatSessions st user_id = true)
    (hst : get_chat_state st user_id = some "awaiting_province") :
    runBody o st user_id text = provinceStateBody o st user_id text := by
  obtain ⟨h1, h2, h3, h4, h5, h6, h7, h8, h9, h10⟩ := h
  unfold runBody
  rw [hst]
  simp [h1, h2, h3, h4, h5, h6, h7, h8, h9, h10, hS]

theorem runBody_carbon_state (o : Oracle) (st : WebhookState)
    (user_id text : String) (h : noTrigger text)
    (hS : inChatSessions st user_id = true)
    (hst : get_chat_state st user_id = some "awaiting_carbon_credit_data") :
    runBody o st user_id text = carbonStateBody st user_id text := by
  obtain ⟨h1, h2, h3, h4, h5, h6, h7, h8, h9, h10⟩ := h
  unfold runBody
  rw [hst]
  simp [h1, h2, h3, h4, h5, h6, h7, h8, h9, h10, hS]

theorem runBody_no_session (o : Oracle) (st : WebhookState)
    (user_id text : String) (h : noTrigger text)
    (hS : inChatSessions st user_id = false) :
    runBody o st user_id text = fallbackBody o st user_id text := by
  obtain ⟨h1, h2, h3, h4, h5, h6, h7, h8, h9, h10⟩ := h
  unfold runBody
  simp [h1, h2, h3, h4, h5, h6, h7, h8, h9, h10, hS]

theorem lookup_assocErase {α : Type} (l : List (String × α)) (k : String) :
    (assocErase l k).lookup k = none := by
  induction l with
  | nil => rfl
  | cons kv rest ih =>
      by_cases h : kv.1 = k
      · simpa [assocErase, List.filter_cons, h] using ih
      · have hk : (k == kv.1) = false :=
          beq_eq_false_iff_ne.mpr (fun he => h he.symm)
        simpa [assocErase, List.filter_cons, h, List.lookup, hk] using ih

/-! ## Claim theorems -/

/-- C3 counterexample: the formula value at `(5, 120)` is `2.928`, not
the claimed `11.712`, and the endpoint accordingly does not return
`(11.712, 0.011712)`. -/
theorem C3_counterexample :
    estimate_methane_emission METHANE_EMISSION_COEFF 5 120 GWP_METHANE
        = 366 / 125
    ∧ ¬ (estimate_methane_emission METHANE_EMISSION_COEFF 5 120 GWP_METHANE
        = 11712 / 1000)
    ∧ ¬ (calculate_carbon_credit 5 120
        = .ok ⟨11712 / 1000, 11712 / 1000000⟩) := by
  refine ⟨?_, ?_, ?_⟩
  · norm_num [estimate_methane_emission, METHANE_EMISSION_COEFF, GWP_METHANE]
  · norm_num [estimate_methane_emission, METHANE_EMISSION_COEFF, GWP_METHANE]
  · norm_num [calculate_carbon_credit, estimate_methane_emission,
      METHANE_EMISSION_COEFF, GWP_METHANE]

/-- C3 amended: for all positive inputs the endpoint is the pure formula
`0.1952 * area * harvestAge * 1e-3 * 25` with credit equal to the
methane emission divided by 1000 exactly; in particular
`estimate(5, 120) = (2.928, 0.002928)`. -/
theorem C3_amended :
    (∀ (area : ℚ) (harvest_age : ℤ), 0 < area → 0 < harvest_age →
      calculate_carbon_credit area harvest_age =
        .ok ⟨estimate_methane_emission METHANE_EMISSION_COEFF area
              harvest_age GWP_METHANE,
             estimate_methane_emission METHANE_EMISSION_COEFF area
              harvest_age GWP_METHANE / 1000⟩)
    ∧ calculate_carbon_credit 5 120 = .ok ⟨366 / 125, 366 / 125000⟩ := by
  constructor
  · intro area harvest_age ha hh
    simp [calculate_carbon_credit, not_le.mpr ha, not_le.mpr hh]
  · norm_num [calculate_carbon_credit, estimate_methane_emission,
      METHANE_EMISSION_COEFF, GWP_METHANE]

theorem C3_amended_witness :
    calculate_carbon_credit 3 10 =
      .ok ⟨estimate_methane_emission METHANE_EMISSION_COEFF 3 10 GWP_METHANE,
           estimate_methane_emission METHANE_EMISSION_COEFF 3 10 GWP_METHANE
             / 1000⟩ :=
  C3_amended.1 3 10 (by norm_num) (by norm_num)

/-- C5: the endpoint rejects `area <= 0` and `harvest_age <= 0` with an
HTTP 400 validation error naming the offending field, and succeeds on
every positive input. -/
theorem C5_validation (area : ℚ) (harvest_age : ℤ) :
    (area ≤ 0 → calculate_carbon_credit area harvest_age
      = .error ⟨400, "Area must be greater than 0"⟩)
    ∧ (0 < area → harvest_age ≤ 0 →
        calculate_carbon_credit area harvest_age
          = .error ⟨400, "Harvest age must be greater than 0"⟩)
    ∧ (0 < area → 0 < harvest_age →
        ∃ resp, calculate_carbon_credit area harvest_age = .ok resp) := by
  refine ⟨?_, ?_, ?_⟩
  · intro ha
    simp [calculate_carbon_credit, ha]
  · intro ha hh
    simp [calculate_carbon_credit, not_le.mpr ha, hh]
  · intro ha hh
    exact ⟨⟨estimate_methane_emission METHANE_EMISSION_COEFF area harvest_age
        GWP_METHANE,
      estimate_methane_emission METHANE_EMISSION_COEFF area harvest_age
        GWP_METHANE / 1000⟩,
      by simp [calculate_carbon_credit, not_le.mpr ha, not_le.mpr hh]⟩

theorem C5_validation_witness :
    calculate_carbon_credit 0 120
      = .error ⟨400, "Area must be greater than 0"⟩
    ∧ calculate_carbon_credit 5 0
      = .error ⟨400, "Harvest age must be greater than 0"⟩
    ∧ ∃ resp, calculate_carbon_credit 5 120 = .ok resp :=
  ⟨(C5_validation 0 120).1 (by norm_num),
   (C5_validation 5 0).2.1 (by norm_num) (by norm_num),
   (C5_validation 5 120).2.2 (by norm_num) (by norm_num)⟩

/-- C10: `get_or_create_chat_session` creates a session only when the
user id is absent as a key of `chat_sessions`; after the carbon branch
stores `None` under an existing key (line 368), it returns `None`
instead of creating a new session. -/
theorem C10_get_or_create (st : WebhookState) (user_id : String)
    (fresh : Nat) :
    (∀ v, st.chatSessions.lookup user_id = some v →
      get_or_create_chat_session st user_id fresh = (v, st))
    ∧ (st.chatSessions.lookup user_id = none →
        (get_or_create_chat_session st user_id fresh).1 = some fresh
        ∧ (get_or_create_chat_session st user_id fresh).2.chatSessions.lookup
            user_id = some (some fresh))
    ∧ get_or_create_chat_session
        { st with chatSessions := assocSet st.chatSessions user_id none }
        user_id fresh
      = (none,
         { st with chatSessions := assocSet st.chatSessions user_id none }) := by
  refine ⟨?_, ?_, ?_⟩
  · intro v hv
    simp [get_or_create_chat_session, hv]
  · intro hnone
    simp [get_or_create_chat_session, hnone, lookup_assocSet_self]
  · simp [get_or_create_chat_session, lookup_assocSet_self]

/-- C6: in state `Idle` the chain coincides with the spec classifier —
the first trigger pair, in the fixed order carbon-credit, news,
field-overview, recommendation, water-data, any of whose keywords
occurs in the text wins — and any Idle message containing
"คำนวณคาร์บอนเครดิต" transitions to `AwaitingCarbonCreditData` with the
fixed prompt. -/
theorem C6_idle_triggers (o : Oracle) (st : WebhookState)
    (user_id text : String) (hIdle : get_chat_state st user_id = none) :
    runBody o st user_id text = intentBody (classify text) o st user_id text
    ∧ (o.loading = .ok () → pyIn "คำนวณคาร์บอนเครดิต" text = true →
        handle_text_message o st user_id text =
          ⟨carbonPrompt,
           set_chat_state st user_id (some "awaiting_carbon_credit_data"),
           false, []⟩) := by
  have hguard : ∀ s : String, ((none : Option String) == some s) = false :=
    fun _ => rfl
  constructor
  · unfold runBody
    rw [hIdle]
    simp only [hguard, Bool.and_false]
    cases hc1 : (pyIn "คำนวณคาร์บอนเครดิต" text
        || pyIn "calculate carbon credit" text) with
    | true =>
        simp [hc1, classify, idleTriggers, intentBody]
    | false =>
        cases hc2 : (pyIn "ข่าววันนี้" text || pyIn "news" text) with
        | true => simp [hc1, hc2, classify, idleTriggers, intentBody]
        | false =>
            cases hc3 : (pyIn "ภาพรวมนา" text
                || pyIn "rice field overview" text) with
            | true => simp [hc1, hc2, hc3, classify, idleTriggers, intentBody]
            | false =>
                cases hc4 : (pyIn "คำแนะนำ" text
                    || pyIn "recommendation" text) with
                | true =>
                    simp [hc1, hc2, hc3, hc4, classify, idleTriggers,
                      intentBody]
                | false =>
                    cases hc5 : (pyIn "ข้อมูลน้ำ" text
                        || pyIn "water data" text) with
                    | true =>
                        simp [hc1, hc2, hc3, hc4, hc5, classify,
                          idleTriggers, intentBody]
                    | false =>
                        simp [hc1, hc2, hc3, hc4, hc5, classify,
                          idleTriggers, intentBody]
  · intro hload hcarbon
    have hc1 : (pyIn "คำนวณคาร์บอนเครดิต" text
        || pyIn "calculate carbon credit" text) = true := by
      rw [hcarbon]; rfl
    unfold handle_text_message
    rw [hload]
    unfold runBody
    rw [hc1]
    rfl

theorem C6_idle_triggers_witness :
    get_chat_state stIdle "U" = none
    ∧ pyIn "คำนวณคาร์บอนเครดิต" "คำนวณคาร์บอนเครดิต news" = true
    ∧ handle_text_message okOracle stIdle "U" "คำนวณคาร์บอนเครดิต news" =
        ⟨carbonPrompt,
         set_chat_state stIdle "U" (some "awaiting_carbon_credit_data"),
         false, []⟩ :=
  ⟨rfl, rfl,
   (C6_idle_triggers okOracle stIdle "U" "คำนวณคาร์บอนเครดิต news" rfl).2
     rfl rfl⟩

/-- C2 counterexample: a user whose state is `awaiting_province` and who
sends "news" gets the Idle news branch — the reply is the news text,
not the province not-found message, and the state is untouched. -/
theorem C2_counterexample :
    handle_text_message okOracle stAwaitProvince "U" "news" =
      ⟨"THE_NEWS", stAwaitProvince, false, []⟩
    ∧ (handle_text_message okOracle stAwaitProvince "U" "news").reply
        ≠ provinceNotFound
    ∧ get_chat_state
        (handle_text_message okOracle stAwaitProvince "U" "news").final "U"
      = some "awaiting_province" := by
  refine ⟨rfl, ?_, rfl⟩
  decide

/-- C2 amended: trigger classification is applied in every state; a
non-Idle session's direct parser handles the message only when the text
contains none of the ten trigger keywords, in which case it does so
exclusively. -/
theorem C2_amended (o : Oracle) (st : WebhookState) (user_id text : String)
    (h : noTrigger text) (hS : inChatSessions st user_id = true) :
    (get_chat_state st user_id = some "awaiting_province" →
      runBody o st user_id text = provinceStateBody o st user_id text)
    ∧ (get_chat_state st user_id = some "awaiting_carbon_credit_data" →
      runBody o st user_id text = carbonStateBody st user_id text)
    ∧ (get_chat_state st user_id = some "waiting_recommendation" →
      runBody o st user_id text = recommendStateBody o st user_id text) :=
  ⟨runBody_province_state o st user_id text h hS,
   runBody_carbon_state o st user_id text h hS,
   runBody_recommend_state o st user_id text h hS⟩

theorem C2_amended_witness :
    runBody okOracle stAwaitProvince "U" "abc"
      = provinceStateBody okOracle stAwaitProvince "U" "abc" :=
  (C2_amended okOracle stAwaitProvince "U" "abc" (by decide) rfl).1 rfl

/-- C9 counterexample: with the user id absent from `chat_sessions` and
the recorded state `awaiting_province`, the message "news" is handled by
the news trigger branch, not by the catch-all free-form chat branch
(which would have sent the text to the LLM). -/
theorem C9_counterexample :
    handle_text_message okOracle stAwaitProvinceNoSession "U" "news" =
      ⟨"THE_NEWS", stAwaitProvinceNoSession, false, []⟩
    ∧ fallbackBody okOracle stAwaitProvinceNoSession "U" "news" =
        .ok ("LLM:news",
          ⟨[("U", some 99)], [("U", some "awaiting_province")]⟩,
          [.llmSend "news"])
    ∧ ("THE_NEWS" : String) ≠ "LLM:news" := by
  refine ⟨rfl, rfl, ?_⟩
  decide

/-- C9 amended: every non-Idle state branch is guarded by key membership
in `chat_sessions`; for a user absent from it, any message matching no
Idle trigger is handled by the catch-all free-form chat branch,
whatever the recorded state. -/
theorem C9_amended (o : Oracle) (st : WebhookState) (user_id text : String)
    (h : noTrigger text) (hS : inChatSessions st user_id = false) :
    runBody o st user_id text = fallbackBody o st user_id text :=
  runBody_no_session o st user_id text h hS

theorem C9_amended_witness :
    runBody okOracle stAwaitProvinceNoSession "U" "abc"
      = fallbackBody okOracle stAwaitProvinceNoSession "U" "abc" :=
  C9_amended okOracle stAwaitProvinceNoSession "U" "abc" (by decide) rfl

/-- C4 counterexample: an exact province-name match in state
`awaiting_province` triggers two hydrology fetches, not one. -/
theorem C4_counterexample :
    fetchCount
      (handle_text_message okOracle stAwaitProvince "U" "สุพรรณบุรี").events
      = 2
    ∧ (2 : Nat) ≠ 1
    ∧ get_chat_state
        (handle_text_message okOracle stAwaitProvince "U" "สุพรรณบุรี").final
        "U" = none := by
  refine ⟨rfl, ?_, rfl⟩
  decide

/-- C4 amended: in state `awaiting_province`, an exact province-name
match triggers exactly two hydrology fetches (small then medium) and,
when the collaborators succeed, an LLM summarisation and a transition to
`Idle`; any other trigger-free text transitions to `Idle` with the
not-found message.  In the province-setting handler variant, a match
issues exactly one relational-store write when the user exists and
clears the pending state. -/
theorem C4_province_amended :
    (∀ (o : Oracle) (st : WebhookState) (user_id text : String)
      (p : ProvinceInfo) (small_data medium_data reply : String),
      noTrigger text → inChatSessions st user_id = true →
      get_chat_state st user_id = some "awaiting_province" →
      findProvince text = some p →
      o.fetchSmall p.code = .ok small_data →
      o.fetchMedium p.code = .ok medium_data →
      sendViaSession o
          (get_or_create_chat_session st user_id o.freshSession).1
          (summaryPrompt medium_data small_data) = .ok reply →
      runBody o st user_id text =
        .ok (summaryPrompt medium_data small_data,
          set_chat_state
            (get_or_create_chat_session st user_id o.freshSession).2
            user_id none,
          [.fetchWater "Small" p.code, .fetchWater "Medium" p.code,
           .llmSend (summaryPrompt medium_data small_data)])
      ∧ fetchCount
          [.fetchWater "Small" p.code, .fetchWater "Medium" p.code,
           .llmSend (summaryPrompt medium_data small_data)] = 2)
    ∧ (∀ (o : Oracle) (st : WebhookState) (user_id text : String),
        noTrigger text → inChatSessions st user_id = true →
        get_chat_state st user_id = some "awaiting_province" →
        findProvince text = none →
        runBody o st user_id text =
          .ok (provinceNotFound, set_chat_state st user_id none, []))
    ∧ (∀ (db userStates : List (String × String)) (user_id text : String)
        (p : ProvinceInfo),
        findProvince text = some p →
        (db.lookup user_id).isSome = true →
        (handle_province_setting db userStates user_id text).writeCount = 1
        ∧ (handle_province_setting db userStates user_id
            text).userStates.lookup user_id = none)
    ∧ (∀ (db userStates : List (String × String)) (user_id text : String),
        findProvince text = none →
        handle_province_setting db userStates user_id text =
          ⟨"ชื่อจังหวัดไม่ถูกต้อง กรุณาลองใหม่.", db,
           assocErase userStates user_id, 0⟩) := by
  refine ⟨?_, ?_, ?_, ?_⟩
  · intro o st user_id text p small_data medium_data reply
      h hS hst hp hsm hmd hsend
    rw [runBody_province_state o st user_id text h hS hst]
    unfold provinceStateBody
    simp [hp, hsm, hmd, hsend]
    rfl
  · intro o st user_id text h hS hst hp
    rw [runBody_province_state o st user_id text h hS hst]
    unfold provinceStateBody
    rw [hp]
  · intro db userStates user_id text p hp hdb
    obtain ⟨v, hv⟩ := Option.isSome_iff_exists.mp hdb
    unfold handle_province_setting update_user_province
    rw [hp, hv]
    exact ⟨rfl, lookup_assocErase userStates user_id⟩
  · intro db userStates user_id text hp
    unfold handle_province_setting
    rw [hp]

theorem C4_province_amended_witness :
    runBody okOracle stAwaitProvince "U" "สุพรรณบุรี" =
      .ok (summaryPrompt "MEDIUMDATA" "SMALLDATA",
        set_chat_state
          (get_or_create_chat_session stAwaitProvince "U"
            okOracle.freshSession).2 "U" none,
        [.fetchWater "Small" 72, .fetchWater "Medium" 72,
         .llmSend (summaryPrompt "MEDIUMDATA" "SMALLDATA")])
    ∧ (handle_province_setting [("U", "-")] [("U", "setting_province")]
        "U" "สุพรรณบุรี").writeCount = 1 :=
  ⟨((C4_province_amended.1 okOracle stAwaitProvince "U" "สุพรรณบุรี"
      ⟨"สุพรรณบุรี", "Suphan Buri", 72⟩ "SMALLDATA" "MEDIUMDATA"
      ("LLM:" ++ summaryPrompt "MEDIUMDATA" "SMALLDATA")
      (by decide) rfl rfl rfl rfl rfl rfl).1),
   ((C4_province_amended.2.2.1 [("U", "-")] [("U", "setting_province")]
      "U" "สุพรรณบุรี" ⟨"สุพรรณบุรี", "Suphan Buri", 72⟩ rfl rfl).1)⟩

/-- C7 counterexample: when the small-reservoir hydrology fetch fails in
state `awaiting_province`, the turn ends with an error reply but the
state remains `awaiting_province` — not the `Idle` the branch's
non-error path would have set. -/
theorem C7_counterexample :
    handle_text_message smallFailOracle stAwaitProvince "U" "สุพรรณบุรี" =
      ⟨"Error processing message: boom", stAwaitProvince, true,
       [.fetchWater "Small" 72]⟩
    ∧ get_chat_state
        (handle_text_message smallFailOracle stAwaitProvince "U"
          "สุพรรณบุรี").final "U" ≠ none := by
  refine ⟨rfl, ?_⟩
  decide

/-- C7 amended: a collaborator failure is not retried and is downgraded
to a reply carrying the failure detail, but the session state is left as
it was at the point of failure — after a failed small-reservoir fetch in
`awaiting_province` the state remains `awaiting_province` and exactly
one fetch was attempted. -/
theorem C7_amended (o : Oracle) (st : WebhookState) (user_id text : String)
    (p : ProvinceInfo) (e : String)
    (hload : o.loading = .ok ()) (h : noTrigger text)
    (hS : inChatSessions st user_id = true)
    (hst : get_chat_state st user_id = some "awaiting_province")
    (hp : findProvince text = some p)
    (hfail : o.fetchSmall p.code = .error e) :
    handle_text_message o st user_id text =
      ⟨"Error processing message: " ++ e, st, true,
       [.fetchWater "Small" p.code]⟩ := by
  unfold handle_text_message
  rw [hload, runBody_province_state o st user_id text h hS hst]
  unfold provinceStateBody
  simp [hp, hfail]

theorem C7_amended_witness :
    handle_text_message smallFailOracle stAwaitProvince "U" "นครราชสีมา" =
      ⟨"Error processing message: boom", stAwaitProvince, true,
       [.fetchWater "Small" 30]⟩ :=
  C7_amended smallFailOracle stAwaitProvince "U" "นครราชสีมา"
    ⟨"นครราชสีมา", "Nakhon Ratchasima", 30⟩ "boom"
    rfl (by decide) rfl rfl rfl rfl

/-- C8 counterexample: the message "news" does not match the pattern,
yet in state `awaiting_carbon_credit_data` it yields the news branch
reply and leaves the state unchanged — no format-error prompt and no
transition to `Idle`. -/
theorem C8_counterexample :
    parseCarbonData "news" = none
    ∧ handle_text_message okOracle stAwaitCarbon "U" "news" =
        ⟨"THE_NEWS", stAwaitCarbon, false, []⟩
    ∧ ("THE_NEWS" : String) ≠ carbonFormatError
    ∧ get_chat_state stAwaitCarbon "U"
        = some "awaiting_carbon_credit_data" := by
  refine ⟨rfl, rfl, ?_, rfl⟩
  decide

/-- C8 amended: in state `awaiting_carbon_credit_data`, a message that
matches no Idle trigger keyword, from a user present in `chat_sessions`,
and that does not match the pattern, produces the format-error prompt
and resets the state to `Idle` rather than re-prompting in the same
state. -/
theorem C8_carbon_format_error (o : Oracle) (st : WebhookState)
    (user_id text : String) (hload : o.loading = .ok ())
    (h : noTrigger text) (hS : inChatSessions st user_id = true)
    (hst : get_chat_state st user_id = some "awaiting_carbon_credit_data")
    (hparse : parseCarbonData text = none) :
    handle_text_message o st user_id text =
      ⟨carbonFormatError, set_chat_state st user_id none, false, []⟩
    ∧ get_chat_state (set_chat_state st user_id none) user_id = none := by
  constructor
  · unfold handle_text_message
    rw [hload, runBody_carbon_state o st user_id text h hS hst]
    unfold carbonStateBody
    rw [hparse]
  · exact get_set_chat_state st user_id none

theorem C8_carbon_format_error_witness :
    handle_text_message okOracle stAwaitCarbon "U" "abc" =
      ⟨carbonFormatError, set_chat_state stAwaitCarbon "U" none, false, []⟩ :=
  (C8_carbon_format_error okOracle stAwaitCarbon "U" "abc"
    rfl (by decide) rfl rfl rfl).1

/-- C1: in state `awaiting_carbon_credit_data`, the input
"5 ไร่, 120 วัน" parses, but the call site supplies only two of the four
required parameters of `estimate_methane_emission`, so the turn ends in
the outer exception handler: the reply is the error message, no report
is produced, the state remains `awaiting_carbon_credit_data`, and the
chat handle is not invalidated. -/
theorem C1_carbon_flow_type_error :
    webhookEstimateMissingParams
      = ["coefficient_methane_emission", "gwp_methane"]
    ∧ parseCarbonData "5 ไร่, 120 วัน" = some (5, 120)
    ∧ handle_text_message okOracle stAwaitCarbon "U" "5 ไร่, 120 วัน" =
        ⟨"Error processing message: " ++ estimateCallTypeError,
         stAwaitCarbon, true, []⟩
    ∧ get_chat_state stAwaitCarbon "U" = some "awaiting_carbon_credit_data"
    ∧ stAwaitCarbon.chatSessions.lookup "U" = some (some 7) :=
  ⟨rfl, rfl, rfl, rfl, rfl⟩

theorem C10_get_or_create_witness :
    get_or_create_chat_session ⟨[("U", some 7)], []⟩ "U" 99
      = (some 7, ⟨[("U", some 7)], []⟩)
    ∧ get_or_create_chat_session
        { stAwaitCarbon with
            chatSessions := assocSet stAwaitCarbon.chatSessions "U" none }
        "U" 99
      = (none,
         { stAwaitCarbon with
             chatSessions := assocSet stAwaitCarbon.chatSessions "U" none }) :=
  ⟨(C10_get_or_create ⟨[("U", some 7)], []⟩ "U" 99).1 (some 7) rfl,
   (C10_get_or_create stAwaitCarbon "U" 99).2.2⟩

end RiceMaid
